import Mathlib

/-!
Verification of the wopr-plugin-websearch core: the SSRF host classifier
(`isPrivateUrl` and its helpers), the result filter (`filterResults`), the
per-provider token-bucket rate limiter (`consumeToken`), the provider
registry (`buildProvider`, `getProviderOrder`) and the fallback
orchestrator (`handler` / `runChain`), shallowly embedded from
`src/web-search.ts`.

Strings are modelled by Lean `String` (a structure over `List Char`);
JavaScript numbers that only ever hold small exact values (token counts,
millisecond timestamps) are modelled by `Rat`; 32-bit unsigned arithmetic
(`>>> 24`, `& 0xff`) is modelled on `Nat` with explicit division and
`% 256`.
-/

-- ---------------------------------------------------------------------------
-- Small character/string helpers used by the embedding
-- ---------------------------------------------------------------------------

/-- Hexadecimal digit test, matching the character class `[0-9a-f]` under the
`i` regex flag used in `web-search.ts`. -/
def isHexChar (c : Char) : Bool :=
  c.isDigit || ('a' ≤ c && c ≤ 'f') || ('A' ≤ c && c ≤ 'F')

/-- Numeric value of a hexadecimal digit (case-insensitive). -/
def hexCharVal (c : Char) : Nat :=
  if c.isDigit then c.toNat - '0'.toNat
  else if 'a' ≤ c && c ≤ 'f' then c.toNat - 'a'.toNat + 10
  else c.toNat - 'A'.toNat + 10

/-- Value of a hexadecimal digit string, as `parseInt(s, 16)` / `Number("0x"+s)`
computes it for a string of hex digits. -/
def hexValue (cs : List Char) : Nat :=
  cs.foldl (fun acc c => acc * 16 + hexCharVal c) 0

/-- Value of a decimal digit string, as `Number(s)` computes it for a string of
decimal digits. -/
def decValue (cs : List Char) : Nat :=
  cs.foldl (fun acc c => acc * 10 + (c.toNat - '0'.toNat)) 0

/-- Split a character list at every occurrence of `sep` (like
`String.prototype.split` with a single-character separator). -/
def splitOnC (sep : Char) : List Char → List (List Char)
  | [] => [[]]
  | c :: rest =>
    let r := splitOnC sep rest
    if c = sep then [] :: r
    else
      match r with
      | g :: gs => (c :: g) :: gs
      | [] => [[c]]

-- ---------------------------------------------------------------------------
-- Model of the platform URL parser (WHATWG `new URL`), scheme and hostname only
-- ---------------------------------------------------------------------------

/-- The two fields of a parsed URL that `isPrivateUrl` reads: `protocol`
(lower-cased scheme with trailing colon, e.g. `"http:"`) and `hostname`
(bracketed for IPv6 literals, original character case). -/
structure ParsedUrl where
  protocol : String
  hostname : String
deriving DecidableEq, Repr

/-- Scheme characters per the URL standard: ALPHA / DIGIT / `+` / `-` / `.`. -/
def isSchemeChar (c : Char) : Bool :=
  c.isAlpha || c.isDigit || c = '+' || c = '-' || c = '.'

/-- Extract the host from the authority component: drop userinfo up to the
last `@`, then either a bracketed IPv6 literal (kept with its brackets, as
`URL.hostname` reports it) or everything before the `:` port separator. -/
def hostOfAuthority (auth : List Char) : Option (List Char) :=
  let hp := (auth.reverse.takeWhile (fun c => c ≠ '@')).reverse
  match hp with
  | '[' :: rest =>
    let inner := rest.takeWhile (fun c => c ≠ ']')
    match rest.drop inner.length with
    | ']' :: _ => some ('[' :: (inner ++ [']']))
    | _ => none
  | _ =>
    let h := hp.takeWhile (fun c => c ≠ ':')
    if h = [] then none else some h

/-- Render one decimal byte of a serialized IPv4 address, i.e. the template
expression `${(hi >> 8) & 0xff}` of the source, on `Nat`. -/
def byteStr (n : Nat) : String := toString (n % 256)

/-- Value of a digit sequence read in octal, as the URL Standard's IPv4
number parser does for a label with a leading `0`. -/
def octValue (cs : List Char) : Nat :=
  cs.foldl (fun acc c => acc * 8 + (c.toNat - '0'.toNat)) 0

/-- Modelled from the platform: the URL Standard's "ends in a number"
test on one dot-label — all ASCII digits, or `0x`/`0X` followed by ASCII
hex digits (possibly none). -/
def isNumericLabel (lbl : List Char) : Bool :=
  (lbl ≠ [] && lbl.all Char.isDigit) ||
  (match lbl with
   | '0' :: x :: rest => (x = 'x' || x = 'X') && rest.all isHexChar
   | _ => false)

/-- Modelled from the platform: the URL Standard's IPv4 number parser on
one dot-label — `0x`/`0X` prefix selects radix 16 (empty digits = 0), a
leading `0` on a longer label selects radix 8, otherwise radix 10; a
non-digit for the selected radix is a failure. -/
def parseIPv4Num (lbl : List Char) : Option Nat :=
  match lbl with
  | [] => none
  | c :: rest =>
    if c = '0' ∧ rest ≠ [] then
      match rest with
      | x :: rest2 =>
        if x = 'x' ∨ x = 'X' then
          if rest2.all isHexChar then some (hexValue rest2) else none
        else if rest.all (fun ch => '0' ≤ ch && ch ≤ '7') then some (octValue rest)
        else none
      | [] => none
    else if (c :: rest).all Char.isDigit then some (decValue (c :: rest)) else none

/-- Parse every dot-label as an IPv4 number, failing if any label fails. -/
def mapIPv4Nums : List (List Char) → Option (List Nat)
  | [] => some []
  | l :: ls =>
    match parseIPv4Num l, mapIPv4Nums ls with
    | some n, some ns => some (n :: ns)
    | _, _ => none

/-- Modelled from the platform: the URL Standard's IPv4 parser over the
dot-labels of a host that ends in a number: at most four labels, every
label a valid IPv4 number, the non-final labels at most 255, the final
label below `256^(5 - n)`, combined big-endian into one 32-bit value. -/
def parseIPv4Host (parts : List (List Char)) : Option Nat :=
  if parts.length = 0 ∨ parts.length > 4 then none
  else
    match mapIPv4Nums parts with
    | none => none
    | some nums =>
      match nums.getLast? with
      | none => none
      | some last =>
        if nums.dropLast.all (fun n => n ≤ 255) && last < 256 ^ (5 - nums.length) then
          some (nums.dropLast.foldl (fun acc n => acc * 256 + n) 0 *
                  256 ^ (5 - nums.length) + last)
        else none

/-- Modelled from the platform: the URL Standard's IPv4 serializer —
the four bytes of the value, most significant first, joined by dots. -/
def serializeIPv4 (v : Nat) : List Char :=
  (byteStr ((v >>> 24) &&& 0xff)).data ++ '.' ::
    ((byteStr ((v >>> 16) &&& 0xff)).data ++ '.' ::
      ((byteStr ((v >>> 8) &&& 0xff)).data ++ '.' :: (byteStr (v &&& 0xff)).data))

/-- Modelled from the platform: the URL Standard's host parser step that
canonicalises a non-bracketed host whose last dot-label (ignoring one
trailing empty label) is numeric: such a host is parsed as an IPv4 address
and re-serialized as a dotted quad, and a failing IPv4 parse fails the
whole URL (`new URL` throws).  Non-numeric hosts pass through; the
domain-to-ASCII conversion is not modelled (no claim involves a host it
would change). -/
def canonicalizeIPv4 (host : List Char) : Option (List Char) :=
  let parts0 := splitOnC '.' host
  let parts := if parts0.getLast? = some [] ∧ parts0.length > 1
               then parts0.dropLast else parts0
  match parts.getLast? with
  | none => none
  | some lbl =>
    if isNumericLabel lbl then
      match parseIPv4Host parts with
      | some v => some (serializeIPv4 v)
      | none => none
    else some host

/-- Host canonicalisation: bracketed IPv6 literals pass through unchanged
(their serialization is not modelled; no claim depends on it), other hosts
go through the IPv4 canonicaliser. -/
def canonicalizeHost (host : List Char) : Option (List Char) :=
  if host.head? = some '[' then some host else canonicalizeIPv4 host

/-- The scheme/authority split of the platform URL parser, before host
canonicalisation: the raw (scheme, host) pair of a string of the shape
`scheme://[userinfo@]host[:port][/|?|#...]`. -/
def rawParse (s : String) : Option (List Char × List Char) :=
  let cs := s.data
  let scheme := cs.takeWhile isSchemeChar
  let rest := cs.drop scheme.length
  if scheme = [] then none
  else if ¬ (scheme.head?.elim false Char.isAlpha) then none
  else
    match rest with
    | ':' :: '/' :: '/' :: r =>
      let auth := r.takeWhile (fun c => c ≠ '/' && c ≠ '?' && c ≠ '#')
      match hostOfAuthority auth with
      | some host => some (scheme, host)
      | none => none
    | _ => none

/-- Modelled from the platform: the WHATWG URL parser as invoked by
`new URL(urlStr)` in `isPrivateUrl`, restricted to the shape
`scheme://[userinfo@]host[:port][/|?|#...]`.  A string not of this shape is
a parse failure (`none`), which matches the classifier's treatment: both a
`new URL` exception and a non-http(s) scheme make the URL private, so the
exact boundary between "throws" and "parses with a non-special scheme" is
irrelevant to every claim.  As in the real parser, a bare numeric host is
canonicalised to its dotted-quad serialization (e.g. `0x7f000001` and
`2130706433` both become `127.0.0.1`), and an invalid numeric host fails
the parse. -/
def parseUrl (s : String) : Option ParsedUrl :=
  match rawParse s with
  | some (scheme, host) =>
    match canonicalizeHost host with
    | some chost =>
      some ⟨String.mk (scheme.map Char.toLower ++ [':']), String.mk chost⟩
    | none => none
  | none => none

-- ---------------------------------------------------------------------------
-- SSRF protection (embedded from src/web-search.ts)
-- ---------------------------------------------------------------------------

/-- The fixed denylist of symbolic hosts (`PRIVATE_HOSTS` in the source). -/
def PRIVATE_HOSTS : List String :=
  ["localhost", "127.0.0.1", "::1", "0.0.0.0",
   "metadata.google.internal", "169.254.169.254"]

/-- The reserved IPv4 range string patterns (`PRIVATE_CIDR_PREFIXES`). -/
def PRIVATE_CIDR_PREFIXES : List String :=
  ["10.", "127.", "169.254.",
   "172.16.", "172.17.", "172.18.", "172.19.", "172.20.", "172.21.",
   "172.22.", "172.23.", "172.24.", "172.25.", "172.26.", "172.27.",
   "172.28.", "172.29.", "172.30.", "172.31.",
   "192.168.", "0.", "100.64.", "198.18.", "198.19."]

/-- String prefix test (JavaScript's `String.prototype.startsWith`),
computed on the character lists so that it evaluates by kernel reduction. -/
def strStarts (s p : String) : Bool :=
  p.data.isPrefixOf s.data

/-- Lower-casing (JavaScript's `toLowerCase` / `URL` host lower-casing),
computed on the character list so that it evaluates by kernel reduction. -/
def lowerString (s : String) : String :=
  String.mk (s.data.map Char.toLower)

/-- The source's `PRIVATE_CIDR_PREFIXES.some((prefix) => s.startsWith(prefix))`. -/
def privateCidrMatch (s : String) : Bool :=
  PRIVATE_CIDR_PREFIXES.any (fun p => strStarts s p)

/-- A syntactically valid IPv4 octet as `node:net`'s `isIP` accepts it:
one to three decimal digits, value at most 255, no leading zero. -/
def validOctet (p : List Char) : Bool :=
  p ≠ [] && p.length ≤ 3 && p.all Char.isDigit && decValue p ≤ 255 &&
    (p.head? ≠ some '0' || p = ['0'])

/-- Modelled from the platform: `node:net`'s `isIP` returning 4, dotted-quad
syntax with strict octets. -/
def isIPv4 (cs : List Char) : Bool :=
  let parts := splitOnC '.' cs
  parts.length = 4 && parts.all validOctet

/-- Modelled from the platform: `node:net`'s `isIP` returning 6, simplified
to "contains a colon and only hex/colon/dot characters".  The only use of
the IPv6 verdict in `isPrivateUrl` is to gate `isPrivateIPv6`, and no claim
distinguishes a syntactically invalid IPv6-looking host from a valid one. -/
def isIPv6 (cs : List Char) : Bool :=
  cs.contains ':' && cs.all (fun c => isHexChar c || c = ':' || c = '.')

/-- Modelled from the platform: `node:net`'s `isIP` (4, 6, or 0). -/
def isIP (cs : List Char) : Nat :=
  if isIPv4 cs then 4 else if isIPv6 cs then 6 else 0

/-- The source's bracket stripping
`hostname.startsWith("[") ? hostname.slice(1, -1) : hostname`. -/
def stripBrackets (s : String) : String :=
  if s.data.head? = some '[' then String.mk (s.data.drop 1).dropLast else s

/-- Case-insensitive `f`, for the `/i`-flagged `::ffff:` prefix match. -/
def isFChar (c : Char) : Bool := c = 'f' || c = 'F'

/-- Match `([0-9a-f]{1,4}):([0-9a-f]{1,4})$` (case-insensitive), returning
the two group values. -/
def hexPairGroups (rest : List Char) : Option (Nat × Nat) :=
  let g1 := rest.takeWhile (fun c => c ≠ ':')
  match rest.drop g1.length with
  | ':' :: g2 =>
    if g1 ≠ [] && g1.length ≤ 4 && g1.all isHexChar &&
       g2 ≠ [] && g2.length ≤ 4 && g2.all isHexChar then
      some (hexValue g1, hexValue g2)
    else none
  | _ => none

/-- Match `\d{1,3}(?:\.\d{1,3}){3}$`: four groups of one to three decimal
digits joined by dots (no value bound, exactly as the source regex). -/
def dottedQuadSyntax (rest : List Char) : Bool :=
  let parts := splitOnC '.' rest
  parts.length = 4 && parts.all (fun p => p ≠ [] && p.length ≤ 3 && p.all Char.isDigit)

/-- Embedded from `extractMappedIPv4` in `src/web-search.ts`: extract the
IPv4 dotted-quad from an IPv4-mapped IPv6 hostname, first via the hex-pair
form `::ffff:XXYY:ZZWW`, then via the dotted form `::ffff:A.B.C.D`. -/
def extractMappedIPv4 (hostname : String) : Option String :=
  let bare := (stripBrackets hostname).data
  match bare with
  | ':' :: ':' :: a :: b :: c :: d :: ':' :: rest =>
    if isFChar a && isFChar b && isFChar c && isFChar d then
      match hexPairGroups rest with
      | some (hi, lo) =>
        some (byteStr ((hi >>> 8) &&& 0xff) ++ "." ++ byteStr (hi &&& 0xff) ++ "." ++
              byteStr ((lo >>> 8) &&& 0xff) ++ "." ++ byteStr (lo &&& 0xff))
      | none =>
        if dottedQuadSyntax rest then some (String.mk rest) else none
    else none
  | _ => none

/-- The decimal branch's range tests on `a = (num >>> 24) & 0xff` and
`b = (num >>> 16) & 0xff` (includes CGNAT `100.64` and benchmark
`198.18`/`198.19`). -/
def decRangeHit (num : Nat) : Bool :=
  let a := (num >>> 24) &&& 0xff
  let b := (num >>> 16) &&& 0xff
  a = 127 || a = 10 || (a = 172 && 16 ≤ b && b ≤ 31) || (a = 192 && b = 168) ||
    (a = 169 && b = 254) || a = 0 || (a = 100 && b = 64) ||
    (a = 198 && (b = 18 || b = 19))

/-- The hexadecimal branch's range tests: the same list minus the CGNAT and
benchmark ranges, exactly as written in the source. -/
def hexRangeHit (num : Nat) : Bool :=
  let a := (num >>> 24) &&& 0xff
  let b := (num >>> 16) &&& 0xff
  a = 127 || a = 10 || (a = 172 && 16 ≤ b && b ≤ 31) || (a = 192 && b = 168) ||
    (a = 169 && b = 254) || a = 0

/-- Embedded from `isNumericPrivateIp` in `src/web-search.ts`: detect bare
numeric hostname encodings (decimal `/^\d+$/`, hexadecimal `/^0x[0-9a-f]+$/i`)
of private 32-bit addresses. -/
def isNumericPrivateIp (hostname : String) : Bool :=
  let cs := hostname.data
  (if cs ≠ [] && cs.all Char.isDigit then
    let num := decValue cs
    num ≤ 0xffffffff && decRangeHit num
   else false)
  ||
  (match cs with
   | '0' :: x :: t =>
     if (x = 'x' || x = 'X') && t ≠ [] && t.all isHexChar then
       let num := hexValue t
       num ≤ 0xffffffff && hexRangeHit num
     else false
   | _ => false)

/-- Embedded from `isPrivateIPv6` in `src/web-search.ts`. -/
def isPrivateIPv6 (bare : String) : Bool :=
  let lower := lowerString bare
  lower = "::1" || strStarts lower "fc" || strStarts lower "fd" ||
    strStarts lower "fe80"

/-- The source's mapped-address step: `extractMappedIPv4` followed by the
denylist and reserved-prefix tests on the embedded IPv4 string. -/
def mappedIsPrivate (hostname : String) : Bool :=
  match extractMappedIPv4 hostname with
  | some m => PRIVATE_HOSTS.contains m || privateCidrMatch m
  | none => false

/-- The body of `isPrivateUrl` after a successful `new URL` parse: the
decision chain of `src/web-search.ts` lines 136-160, returning true at the
first matching step. -/
def isPrivateParsed (u : ParsedUrl) : Bool :=
  let hostname := lowerString u.hostname
  if u.protocol ≠ "http:" ∧ u.protocol ≠ "https:" then true
  else
    let bare := stripBrackets hostname
    if PRIVATE_HOSTS.contains hostname || PRIVATE_HOSTS.contains bare then true
    else if isIP bare.data = 4 && privateCidrMatch bare then true
    else if isIP bare.data = 6 && isPrivateIPv6 bare then true
    else if mappedIsPrivate hostname then true
    else if isNumericPrivateIp hostname then true
    else false

/-- Embedded from `isPrivateUrl` in `src/web-search.ts`: classify a URL
string as private/unsafe; a parse failure (`new URL` throwing) is caught
and classified private. -/
def isPrivateUrl (urlStr : String) : Bool :=
  match parseUrl urlStr with
  | none => true
  | some u => isPrivateParsed u

-- ---------------------------------------------------------------------------
-- Result filter
-- ---------------------------------------------------------------------------

/-- The uniform search result shape of `src/providers/types.ts`. -/
structure WebSearchResult where
  title : String
  url : String
  snippet : String
deriving DecidableEq, Repr

/-- Embedded from `filterResults` in `src/web-search.ts`. -/
def filterResults (results : List WebSearchResult) : List WebSearchResult :=
  results.filter (fun r => !isPrivateUrl r.url)

-- ---------------------------------------------------------------------------
-- Per-provider rate limiter (token bucket)
-- ---------------------------------------------------------------------------

/-- The bucket record of `src/web-search.ts` (`RateBucket`).  JavaScript
numbers are modelled by `Rat`; the quantities involved (token counts in
steps of 1, `Date.now()` milliseconds divided by 1000, refill products)
are exact in both models. -/
structure RateBucket where
  tokens : Rat
  lastRefill : Rat
  maxTokens : Rat
  refillRate : Rat
deriving DecidableEq, Repr

/-- The bucket `getRateBucket` creates on first reference to an identity:
`{ tokens: 10, lastRefill: Date.now(), maxTokens: 10, refillRate: 10 }`. -/
def freshBucket (now : Rat) : RateBucket :=
  { tokens := 10, lastRefill := now, maxTokens := 10, refillRate := 10 }

/-- Embedded from `consumeToken` in `src/web-search.ts`: lazy refill from
elapsed wall-clock milliseconds, then consume one token if at least one is
available.  `now` is the value of `Date.now()` at the call. -/
def consumeToken (bucket : RateBucket) (now : Rat) : Bool × RateBucket :=
  let elapsed := (now - bucket.lastRefill) / 1000
  let tokens := min bucket.maxTokens (bucket.tokens + elapsed * bucket.refillRate)
  let b := { bucket with tokens := tokens, lastRefill := now }
  if b.tokens < 1 then (false, b)
  else (true, { b with tokens := b.tokens - 1 })

/-- Run a sequence of `consumeToken` calls at the given `Date.now()` values,
collecting each call's boolean outcome and the final bucket state. -/
def consumeRun (bucket : RateBucket) : List Rat → List Bool × RateBucket
  | [] => ([], bucket)
  | now :: rest =>
    let (ok, b2) := consumeToken bucket now
    let (oks, bf) := consumeRun b2 rest
    (ok :: oks, bf)

-- ---------------------------------------------------------------------------
-- Provider registry
-- ---------------------------------------------------------------------------

/-- The environment-variable credential source read by `buildProvider`
(`process.env.*`); an unset variable is `none`. -/
structure Env where
  GOOGLE_SEARCH_API_KEY : Option String
  GOOGLE_SEARCH_CX : Option String
  BRAVE_SEARCH_API_KEY : Option String
  XAI_API_KEY : Option String
deriving DecidableEq, Repr

/-- The plugin config interface (`WebSearchPluginConfig`), flattened: the
optional provider order and the optional per-provider credentials. -/
structure WebSearchPluginConfig where
  providerOrder : Option (List String) := none
  googleApiKey : Option String := none
  googleCx : Option String := none
  braveApiKey : Option String := none
  xaiApiKey : Option String := none
deriving DecidableEq, Repr

/-- An instantiated backend client, recording which provider class was
constructed and with which resolved credential values. -/
inductive ProviderClient where
  | google (apiKey cx : String)
  | brave (apiKey : String)
  | xai (apiKey : String)
deriving DecidableEq, Repr

/-- JavaScript's `??` on `string | undefined` values. -/
def jsCoalesce (a b : Option String) : Option String :=
  match a with
  | some v => some v
  | none => b

/-- JavaScript truthiness of a `string | undefined` value, as tested by
`if (!apiKey)`: falsy when absent or the empty string. -/
def jsTruthy (a : Option String) : Bool :=
  match a with
  | some v => v ≠ ""
  | none => false

/-- Embedded from `buildProvider` in `src/web-search.ts`: resolve credentials
(environment value `??` config value, then a truthiness check) and
instantiate the client; unknown names take the `default` branch and yield
`null`. -/
def buildProvider (name : String) (env : Env) (config : WebSearchPluginConfig) :
    Option ProviderClient :=
  if name = "google" then
    let apiKey := jsCoalesce env.GOOGLE_SEARCH_API_KEY config.googleApiKey
    let cx := jsCoalesce env.GOOGLE_SEARCH_CX config.googleCx
    if !jsTruthy apiKey || !jsTruthy cx then none
    else some (.google (apiKey.getD "") (cx.getD ""))
  else if name = "brave" then
    let apiKey := jsCoalesce env.BRAVE_SEARCH_API_KEY config.braveApiKey
    if !jsTruthy apiKey then none
    else some (.brave (apiKey.getD ""))
  else if name = "xai" then
    let apiKey := jsCoalesce env.XAI_API_KEY config.xaiApiKey
    if !jsTruthy apiKey then none
    else some (.xai (apiKey.getD ""))
  else none

/-- The known provider identities, as in the source's
`["google", "brave", "xai"].includes(n)`. -/
def knownProviders : List String := ["google", "brave", "xai"]

/-- The source's `DEFAULT_PROVIDER_ORDER`. -/
def DEFAULT_PROVIDER_ORDER : List String := ["google", "brave", "xai"]

/-- Embedded from `getProviderOrder` in `src/web-search.ts`. -/
def getProviderOrder (config : WebSearchPluginConfig) : List String :=
  match config.providerOrder with
  | some order =>
    if order.length > 0 then order.filter (fun n => knownProviders.contains n)
    else DEFAULT_PROVIDER_ORDER
  | none => DEFAULT_PROVIDER_ORDER

-- ---------------------------------------------------------------------------
-- Fallback orchestrator (the web_search tool handler)
-- ---------------------------------------------------------------------------

/-- The outcome sum type of the spec's data model.  The handler's A2A
envelope is abstracted to it: the JSON success payload
`{ provider, query, resultCount, results }` becomes `success` (resultCount
being the length of the list), and the `isError` aggregate message carrying
one line per attempted provider becomes `failure` with those diagnostic
lines. -/
inductive SearchOutcome where
  | success (provider : String) (query : String) (results : List WebSearchResult)
  | failure (diagnostics : List String)
deriving DecidableEq, Repr

/-- The handler's count clamp: `Math.max(1, Math.min(rawCount ?? 5, 20))`. -/
def clampCount (rawCount : Option Int) : Int :=
  max 1 (min (rawCount.getD 5) 20)

/-- The per-call context threaded through the candidate loop: the credential
sources, the rate limiter (an abstract state `σ` with a `consume` step,
instantiable by the concrete bucket map keyed by provider name), and the
backend clients' `search` behaviour (`Except.error` models a thrown
transport/API error). -/
structure ChainCtx (σ : Type) where
  env : Env
  config : WebSearchPluginConfig
  consume : σ → String → Bool × σ
  backend : ProviderClient → String → Int → Except String (List WebSearchResult)
  query : String
  count : Int

/-- Embedded from the candidate loop of the `web_search` handler
(`src/web-search.ts` lines 278-325): per candidate, resolve the provider
(else record `"<name>: not configured"`), consume a rate-limiter token
(else record `"<name>: rate limited"`), run the backend search (a thrown
error is caught and recorded as `"<name>: <message>"`), and on success
return immediately with the filtered results. -/
def runChain {σ : Type} (ctx : ChainCtx σ) :
    List String → σ → List String → SearchOutcome
  | [], _, errors => .failure errors
  | name :: rest, limiter, errors =>
    match buildProvider name ctx.env ctx.config with
    | none => runChain ctx rest limiter (errors ++ [name ++ ": not configured"])
    | some client =>
      match ctx.consume limiter name with
      | (ok, limiter2) =>
        if !ok then runChain ctx rest limiter2 (errors ++ [name ++ ": rate limited"])
        else
          match ctx.backend client ctx.query ctx.count with
          | .ok raw => .success name ctx.query (filterResults raw)
          | .error msg => runChain ctx rest limiter2 (errors ++ [name ++ ": " ++ msg])

/-- The candidate order computed by the handler:
`forcedProvider ? [forcedProvider] : getProviderOrder(config)`; note that
JavaScript truthiness sends an empty forced string to the configured
order. -/
def candidateOrder (forcedProvider : Option String) (config : WebSearchPluginConfig) :
    List String :=
  match forcedProvider with
  | some p => if p = "" then getProviderOrder config else [p]
  | none => getProviderOrder config

/-- Embedded from the `web_search` tool `handler` in `src/web-search.ts`:
clamp the count, compute the candidate order, and run the fallback loop. -/
def handler {σ : Type} (env : Env) (config : WebSearchPluginConfig)
    (consume : σ → String → Bool × σ)
    (backend : ProviderClient → String → Int → Except String (List WebSearchResult))
    (query : String) (rawCount : Option Int) (forcedProvider : Option String)
    (limiter : σ) : SearchOutcome :=
  runChain ⟨env, config, consume, backend, query, clampCount rawCount⟩
    (candidateOrder forcedProvider config) limiter []

-- ---------------------------------------------------------------------------
-- Helper lemmas
-- ---------------------------------------------------------------------------

/-- Counting lemma for `filterResults`: a safe result keeps its multiplicity,
an unsafe one is removed entirely. -/
theorem count_filterResults (rs : List WebSearchResult) (r : WebSearchResult) :
    (filterResults rs).count r =
      if isPrivateUrl r.url = false then rs.count r else 0 := by
  by_cases h : isPrivateUrl r.url = false
  · rw [if_pos h]
    exact List.count_filter (by simp [h])
  · rw [if_neg h]
    apply List.count_eq_zero.mpr
    intro hmem
    exact h (by simpa using (List.mem_filter.mp hmem).2)

-- ---------------------------------------------------------------------------
-- Claims
-- ---------------------------------------------------------------------------

/-- C2 (confirmed): `isPrivateUrl` is total — in this embedding it is a
function into `Bool`, so it returns a boolean on every input string — and
it fails closed: every string that does not parse as a URL is classified
private, in particular `"not-a-url"`. -/
theorem C2_isPrivateUrl_total_fail_closed :
    (∀ s : String, isPrivateUrl s = true ∨ isPrivateUrl s = false) ∧
    (∀ s : String, parseUrl s = none → isPrivateUrl s = true) ∧
    parseUrl "not-a-url" = none ∧
    isPrivateUrl "not-a-url" = true := by
  refine ⟨fun s => ?_, fun s h => ?_, by decide, by decide⟩
  · cases isPrivateUrl s
    · exact Or.inr rfl
    · exact Or.inl rfl
  · simp [isPrivateUrl, h]

/-- Witness for C2 at the concrete unparseable input of the claim. -/
theorem C2_witness : isPrivateUrl "not-a-url" = true :=
  C2_isPrivateUrl_total_fail_closed.2.1 "not-a-url" (by decide)

/-- C4 (confirmed): `filterResults` returns exactly the stable-order
subsequence of safe results: it is a sublist (hence order-preserving and
non-mutating), membership is exactly "was in the input and classified
safe", and multiplicities of safe results are preserved while unsafe ones
are removed entirely. -/
theorem C4_filterResults_spec :
    ∀ rs : List WebSearchResult,
      (filterResults rs).Sublist rs ∧
      (∀ r, r ∈ filterResults rs ↔ r ∈ rs ∧ isPrivateUrl r.url = false) ∧
      (∀ r, (filterResults rs).count r =
        if isPrivateUrl r.url = false then rs.count r else 0) := by
  intro rs
  refine ⟨List.filter_sublist _, fun r => ?_, fun r => count_filterResults rs r⟩
  simp [filterResults, List.mem_filter]

/-- Witness for C4 at a concrete two-element input: the private result is
dropped, the public one retained. -/
theorem C4_witness :
    filterResults [⟨"Good", "https://example.com/1", "s"⟩,
                   ⟨"Bad", "http://127.0.0.1/secret", "s"⟩] =
      [⟨"Good", "https://example.com/1", "s"⟩] ∧
    (filterResults [⟨"Good", "https://example.com/1", "s"⟩,
                    ⟨"Bad", "http://127.0.0.1/secret", "s"⟩]).Sublist
      [⟨"Good", "https://example.com/1", "s"⟩,
       ⟨"Bad", "http://127.0.0.1/secret", "s"⟩] :=
  ⟨by decide,
   (C4_filterResults_spec [⟨"Good", "https://example.com/1", "s"⟩,
                           ⟨"Bad", "http://127.0.0.1/secret", "s"⟩]).1⟩

-- ---------------------------------------------------------------------------
-- Lemmas about the host canonicaliser, for the numeric-host claim
-- ---------------------------------------------------------------------------

/-- A list with no occurrence of the separator splits into itself. -/
theorem splitOnC_of_forall_ne (sep : Char) (l : List Char)
    (h : ∀ c ∈ l, c ≠ sep) : splitOnC sep l = [l] := by
  induction l with
  | nil => rfl
  | cons c cs ih =>
    have hc : c ≠ sep := h c (List.mem_cons_self c cs)
    have ih2 := ih (fun d hd => h d (List.mem_cons_of_mem c hd))
    simp [splitOnC, hc, ih2]

/-- Splitting peels off a separator-free segment before a separator. -/
theorem splitOnC_append_sep (sep : Char) (l1 l2 : List Char)
    (h : ∀ c ∈ l1, c ≠ sep) :
    splitOnC sep (l1 ++ sep :: l2) = l1 :: splitOnC sep l2 := by
  induction l1 with
  | nil => simp [splitOnC]
  | cons c cs ih =>
    have hc : c ≠ sep := h c (List.mem_cons_self c cs)
    have ih2 := ih (fun d hd => h d (List.mem_cons_of_mem c hd))
    simp [splitOnC, hc, ih2]

/-- A list is a Boolean prefix of itself followed by anything. -/
theorem isPrefixOf_append_self (p rest : List Char) :
    p.isPrefixOf (p ++ rest) = true := by
  induction p with
  | nil => simp
  | cons c cs ih => simp [List.isPrefixOf, ih]

/-- Hex digits are not the dot separator. -/
theorem ne_dot_of_isHexChar {c : Char} (h : isHexChar c = true) : c ≠ '.' := by
  intro he; subst he; exact absurd h (by decide)

/-- Decimal digits are not the dot separator. -/
theorem ne_dot_of_isDigit {c : Char} (h : c.isDigit = true) : c ≠ '.' := by
  intro he; subst he; exact absurd h (by decide)

/-- Decimal digits are not an opening bracket. -/
theorem ne_bracket_of_isDigit {c : Char} (h : c.isDigit = true) : c ≠ '[' := by
  intro he; subst he; exact absurd h (by decide)

/-- Lower-casing fixes decimal digits. -/
theorem toLower_of_isDigit {c : Char} (h : c.isDigit = true) : c.toLower = c := by
  simp only [Char.isDigit, Bool.and_eq_true, decide_eq_true_eq] at h
  unfold Char.toLower
  rw [if_neg]
  rintro ⟨h65, _⟩
  have h2 : c.val ≤ 57 := h.2
  have h3 : c.toNat ≤ 57 := by simpa [Char.toNat] using h2
  omega

/-- Lower-casing fixes digit strings. -/
theorem map_toLower_of_digits (p : List Char) (h : p.all Char.isDigit = true) :
    p.map Char.toLower = p := by
  induction p with
  | nil => rfl
  | cons c cs ih =>
    simp only [List.all_cons, Bool.and_eq_true] at h
    simp [toLower_of_isDigit h.1, ih h.2]

set_option maxRecDepth 10000 in
/-- The decimal rendering of a byte is a valid strict IPv4 octet. -/
theorem validOctet_toString : ∀ n, n < 256 → validOctet (toString n).data = true := by
  decide

/-- The serialized dotted quad of a value whose top two octets are 100.64
is classified private by the post-parse classifier: the host is a valid
strict IPv4 literal and matches the `100.64.` reserved prefix. -/
theorem serialized_cgnat_private (p : String) (v : Nat)
    (hproto : p = "http:" ∨ p = "https:")
    (ha : (v >>> 24) &&& 0xff = 100) (hb : (v >>> 16) &&& 0xff = 64) :
    isPrivateParsed ⟨p, String.mk (serializeIPv4 v)⟩ = true := by
  have hx : (v >>> 8) &&& 0xff < 256 := Nat.lt_succ_of_le Nat.and_le_right
  have hy : v &&& 0xff < 256 := Nat.lt_succ_of_le Nat.and_le_right
  have hser : serializeIPv4 v =
      "100".data ++ '.' :: ("64".data ++ '.' ::
        ((toString ((v >>> 8) &&& 0xff)).data ++ '.' ::
          (toString (v &&& 0xff)).data)) := by
    simp only [serializeIPv4, byteStr, ha, hb, Nat.mod_eq_of_lt hx, Nat.mod_eq_of_lt hy]
    rfl
  have hvC := validOctet_toString _ hx
  have hvD := validOctet_toString _ hy
  have hCdig : (toString ((v >>> 8) &&& 0xff)).data.all Char.isDigit = true := by
    have := hvC
    simp only [validOctet, Bool.and_eq_true] at this
    exact this.1.1.2
  have hDdig : (toString (v &&& 0xff)).data.all Char.isDigit = true := by
    have := hvD
    simp only [validOctet, Bool.and_eq_true] at this
    exact this.1.1.2
  have hCnd : ∀ c ∈ (toString ((v >>> 8) &&& 0xff)).data, c ≠ '.' := fun c hc =>
    ne_dot_of_isDigit (List.all_eq_true.mp hCdig c hc)
  have hDnd : ∀ c ∈ (toString (v &&& 0xff)).data, c ≠ '.' := fun c hc =>
    ne_dot_of_isDigit (List.all_eq_true.mp hDdig c hc)
  have hlow : lowerString (String.mk (serializeIPv4 v)) = String.mk (serializeIPv4 v) := by
    simp only [lowerString, hser, List.map_append, List.map_cons,
      map_toLower_of_digits _ hCdig, map_toLower_of_digits _ hDdig]
    rfl
  have hbare : stripBrackets (String.mk (serializeIPv4 v)) =
      String.mk (serializeIPv4 v) := by
    rw [stripBrackets, if_neg]
    rw [hser]
    simp
  have hip4 : isIPv4 (serializeIPv4 v) = true := by
    simp only [isIPv4]
    rw [hser, splitOnC_append_sep _ _ _ (by decide),
      splitOnC_append_sep _ _ _ (by decide),
      splitOnC_append_sep _ _ _ hCnd,
      splitOnC_of_forall_ne _ _ hDnd]
    simp [hvC, hvD]
    exact ⟨by decide, by decide⟩
  have hip : isIP (serializeIPv4 v) = 4 := by simp [isIP, hip4]
  have hpre : strStarts (String.mk (serializeIPv4 v)) "100.64." = true := by
    simp only [strStarts, hser]
    have hshape : ("100".data : List Char) ++ '.' :: ("64".data ++ '.' ::
        ((toString ((v >>> 8) &&& 0xff)).data ++ '.' ::
          (toString (v &&& 0xff)).data)) =
        "100.64.".data ++ ((toString ((v >>> 8) &&& 0xff)).data ++ '.' ::
          (toString (v &&& 0xff)).data) := rfl
    rw [hshape]
    exact isPrefixOf_append_self _ _
  have hcidr : privateCidrMatch (String.mk (serializeIPv4 v)) = true := by
    simp [privateCidrMatch, PRIVATE_CIDR_PREFIXES, hpre]
  simp only [isPrivateParsed, hlow, hbare]
  rcases hproto with hp | hp <;> subst hp <;>
    by_cases hPH : (PRIVATE_HOSTS.contains (String.mk (serializeIPv4 v)) ||
        PRIVATE_HOSTS.contains (String.mk (serializeIPv4 v))) = true <;>
      simp [hPH, hip, hcidr]

/-- A bare `0x`-prefixed hexadecimal host in range is canonicalised by the
URL parser to the dotted quad of its value. -/
theorem canonicalizeHost_hex (t : List Char) (_hne : t ≠ [])
    (hhex : t.all isHexChar = true) (hle : hexValue t ≤ 0xffffffff) :
    canonicalizeHost ('0' :: 'x' :: t) = some (serializeIPv4 (hexValue t)) := by
  have hnd : ∀ c ∈ ('0' :: 'x' :: t), c ≠ '.' := by
    intro c hc
    rcases List.mem_cons.mp hc with h0 | hc2
    · subst h0; decide
    rcases List.mem_cons.mp hc2 with h0 | hc3
    · subst h0; decide
    · exact ne_dot_of_isHexChar (List.all_eq_true.mp hhex c hc3)
  have hpn : parseIPv4Num ('0' :: 'x' :: t) = some (hexValue t) := by
    simp [parseIPv4Num, hhex]
  have hph : parseIPv4Host [('0' :: 'x' :: t)] = some (hexValue t) := by
    simp [parseIPv4Host, mapIPv4Nums, hpn]
    omega
  rw [canonicalizeHost, if_neg (by simp)]
  rw [canonicalizeIPv4, splitOnC_of_forall_ne _ _ hnd]
  simp [isNumericLabel, hhex, hph]

/-- A bare decimal host in range with no leading zero is canonicalised by
the URL parser to the dotted quad of its value. -/
theorem canonicalizeHost_dec (d : List Char) (hne : d ≠ [])
    (hdig : d.all Char.isDigit = true) (h0 : d.head? ≠ some '0')
    (hle : decValue d ≤ 0xffffffff) :
    canonicalizeHost d = some (serializeIPv4 (decValue d)) := by
  cases d with
  | nil => exact absurd rfl hne
  | cons c cs =>
    simp only [List.all_cons, Bool.and_eq_true] at hdig
    have hc0 : c ≠ '0' := by
      intro he; exact h0 (by rw [he]; rfl)
    have hcb : c ≠ '[' := ne_bracket_of_isDigit hdig.1
    have hnd : ∀ x ∈ (c :: cs), x ≠ '.' := by
      intro x hx
      rcases List.mem_cons.mp hx with h | h
      · subst h; exact ne_dot_of_isDigit hdig.1
      · exact ne_dot_of_isDigit (List.all_eq_true.mp hdig.2 x h)
    have hpn : parseIPv4Num (c :: cs) = some (decValue (c :: cs)) := by
      simp [parseIPv4Num, hc0, hdig.1, hdig.2]
    have hph : parseIPv4Host [(c :: cs)] = some (decValue (c :: cs)) := by
      simp [parseIPv4Host, mapIPv4Nums, hpn]
      omega
    rw [canonicalizeHost, if_neg (by simp [hcb])]
    rw [canonicalizeIPv4, splitOnC_of_forall_ne _ _ hnd]
    simp [isNumericLabel, hdig.1, hdig.2, hph]

/-- C1 (confirmed): the URL parser canonicalises a bare numeric host
(`0x`-hex or decimal) to its dotted-quad serialization, so every http(s)
URL whose raw hostname is a `0x`-prefixed hexadecimal string decoding to a
32-bit address in 100.64.*.* is classified private via the `100.64.`
reserved prefix — exactly as the decimal encoding of the same address is. -/
theorem C1_numeric_cgnat_private :
    (∀ (s : String) (scheme t : List Char),
      rawParse s = some (scheme, '0' :: 'x' :: t) →
      (scheme.map Char.toLower = "http".data ∨
        scheme.map Char.toLower = "https".data) →
      t ≠ [] → t.all isHexChar = true →
      hexValue t ≤ 0xffffffff →
      (hexValue t >>> 24) &&& 0xff = 100 →
      (hexValue t >>> 16) &&& 0xff = 64 →
      isPrivateUrl s = true) ∧
    (∀ (s : String) (scheme d : List Char),
      rawParse s = some (scheme, d) →
      (scheme.map Char.toLower = "http".data ∨
        scheme.map Char.toLower = "https".data) →
      d ≠ [] → d.all Char.isDigit = true → d.head? ≠ some '0' →
      decValue d ≤ 0xffffffff →
      (decValue d >>> 24) &&& 0xff = 100 →
      (decValue d >>> 16) &&& 0xff = 64 →
      isPrivateUrl s = true) ∧
    isPrivateUrl "http://0x64400001" = true ∧
    isPrivateUrl "http://1681915905" = true := by
  refine ⟨?_, ?_, by decide, by decide⟩
  · intro s scheme t hraw hscheme hne hhex hle ha hb
    have hcanon := canonicalizeHost_hex t hne hhex hle
    have hproto : String.mk (scheme.map Char.toLower ++ [':']) = "http:" ∨
        String.mk (scheme.map Char.toLower ++ [':']) = "https:" := by
      rcases hscheme with h | h
      · left; rw [h]; rfl
      · right; rw [h]; rfl
    simp only [isPrivateUrl, parseUrl, hraw, hcanon]
    exact serialized_cgnat_private _ _ hproto ha hb
  · intro s scheme d hraw hscheme hne hdig h0 hle ha hb
    have hcanon := canonicalizeHost_dec d hne hdig h0 hle
    have hproto : String.mk (scheme.map Char.toLower ++ [':']) = "http:" ∨
        String.mk (scheme.map Char.toLower ++ [':']) = "https:" := by
      rcases hscheme with h | h
      · left; rw [h]; rfl
      · right; rw [h]; rfl
    simp only [isPrivateUrl, parseUrl, hraw, hcanon]
    exact serialized_cgnat_private _ _ hproto ha hb

/-- Witness for C1: both general conjuncts applied at the hex and decimal
encodings of `100.64.0.1`. -/
theorem C1_numeric_cgnat_witness :
    isPrivateUrl "http://0x64400001" = true ∧
    isPrivateUrl "http://1681915905" = true :=
  ⟨C1_numeric_cgnat_private.1 "http://0x64400001" "http".data "64400001".data
      (by decide) (Or.inl (by decide)) (by decide) (by decide) (by decide)
      (by decide) (by decide),
   C1_numeric_cgnat_private.2.1 "http://1681915905" "http".data "1681915905".data
      (by decide) (Or.inl (by decide)) (by decide) (by decide) (by decide)
      (by decide) (by decide) (by decide)⟩

/-- C3 (confirmed): an http(s) URL whose hostname is an IPv4-mapped IPv6
literal (either textual form accepted by `extractMappedIPv4`) whose
embedded IPv4 address is on the symbolic denylist or matches a reserved
IPv4 prefix is classified private; in particular both mapped encodings of
`127.0.0.1` are. -/
theorem C3_mapped_ipv4_private :
    (∀ (s : String) (u : ParsedUrl) (m : String),
      parseUrl s = some u →
      (u.protocol = "http:" ∨ u.protocol = "https:") →
      extractMappedIPv4 (lowerString u.hostname) = some m →
      (PRIVATE_HOSTS.contains m || privateCidrMatch m) = true →
      isPrivateUrl s = true) ∧
    isPrivateUrl "http://[::ffff:7f00:1]/" = true ∧
    isPrivateUrl "http://[::ffff:127.0.0.1]/" = true := by
  refine ⟨fun s u m hp hproto hm hpriv => ?_, by decide, by decide⟩
  simp only [isPrivateUrl, hp]
  simp only [isPrivateParsed, mappedIsPrivate, hm, hpriv]
  repeat' split <;> simp_all

/-- Witness for C3: the general theorem applied at the hex-pair mapped
loopback URL. -/
theorem C3_witness : isPrivateUrl "http://[::ffff:7f00:1]/" = true :=
  C3_mapped_ipv4_private.1 "http://[::ffff:7f00:1]/"
    ⟨"http:", "[::ffff:7f00:1]"⟩ "127.0.0.1"
    (by decide) (Or.inl rfl) (by decide) (by decide)

/-- C7 is refuted on the code: `buildProvider` resolves each credential as
`process.env.X ?? config...`, so when both sources are present the client
is built from the environment value, not the explicit per-call config
value. -/
theorem C7_counterexample :
    buildProvider "brave"
      { GOOGLE_SEARCH_API_KEY := none, GOOGLE_SEARCH_CX := none,
        BRAVE_SEARCH_API_KEY := some "env-key", XAI_API_KEY := none }
      { braveApiKey := some "config-key" } =
      some (ProviderClient.brave "env-key") ∧
    ProviderClient.brave "env-key" ≠ ProviderClient.brave "config-key" := by
  refine ⟨by decide, by decide⟩

/-- C7 (corrected): credential precedence is the reverse of the claim — for
every provider identity, when both an environment credential and an
explicit per-call config credential are present (and the environment value
is truthy), the instantiated client is built from the environment value,
whatever the config holds. -/
theorem C7_amended :
    (∀ (k c : String) (b x : Option String) (config : WebSearchPluginConfig),
      k ≠ "" → c ≠ "" →
      buildProvider "google"
        { GOOGLE_SEARCH_API_KEY := some k, GOOGLE_SEARCH_CX := some c,
          BRAVE_SEARCH_API_KEY := b, XAI_API_KEY := x } config =
        some (ProviderClient.google k c)) ∧
    (∀ (k : String) (g gc x : Option String) (config : WebSearchPluginConfig),
      k ≠ "" →
      buildProvider "brave"
        { GOOGLE_SEARCH_API_KEY := g, GOOGLE_SEARCH_CX := gc,
          BRAVE_SEARCH_API_KEY := some k, XAI_API_KEY := x } config =
        some (ProviderClient.brave k)) ∧
    (∀ (k : String) (g gc b : Option String) (config : WebSearchPluginConfig),
      k ≠ "" →
      buildProvider "xai"
        { GOOGLE_SEARCH_API_KEY := g, GOOGLE_SEARCH_CX := gc,
          BRAVE_SEARCH_API_KEY := b, XAI_API_KEY := some k } config =
        some (ProviderClient.xai k)) := by
  refine ⟨fun k c b x config hk hc => ?_, fun k g gc x config hk => ?_,
    fun k g gc b config hk => ?_⟩ <;>
    simp [buildProvider, jsCoalesce, jsTruthy, hk]
  exact hc

/-- Witness for the amended C7: with both the environment and the config
holding a Brave key, the client carries the environment value. -/
theorem C7_amended_witness :
    buildProvider "brave"
      { GOOGLE_SEARCH_API_KEY := none, GOOGLE_SEARCH_CX := none,
        BRAVE_SEARCH_API_KEY := some "env-key", XAI_API_KEY := none }
      { braveApiKey := some "config-key" } =
      some (ProviderClient.brave "env-key") :=
  C7_amended.2.1 "env-key" none none none
    { braveApiKey := some "config-key" } (by decide)

/-- C5 (confirmed): whenever the current candidate resolves, passes the
rate limiter and its backend search returns without error, the loop
returns `success` for that provider with the filtered results, for every
possible tail of later candidates (none is attempted); and concretely a
provider whose only result is filtered out still yields `success` with an
empty result list — the remaining configured candidate is not tried. -/
theorem C5_first_success_immediate :
    (∀ (σ : Type) (ctx : ChainCtx σ) (name : String) (rest : List String)
      (limiter : σ) (errors : List String) (client : ProviderClient)
      (raw : List WebSearchResult) (limiter2 : σ),
      buildProvider name ctx.env ctx.config = some client →
      ctx.consume limiter name = (true, limiter2) →
      ctx.backend client ctx.query ctx.count = .ok raw →
      runChain ctx (name :: rest) limiter errors =
        .success name ctx.query (filterResults raw)) ∧
    handler (σ := Unit)
      { GOOGLE_SEARCH_API_KEY := none, GOOGLE_SEARCH_CX := none,
        BRAVE_SEARCH_API_KEY := some "bk", XAI_API_KEY := some "xk" }
      {}
      (fun u _ => (true, u))
      (fun _ _ _ => .ok [⟨"Bad", "http://127.0.0.1/secret", "s"⟩])
      "q" none none () = .success "brave" "q" [] := by
  constructor
  · intro σ ctx name rest limiter errors client raw limiter2 hbuild hcons hback
    simp [runChain, hbuild, hcons, hback]
  · decide

/-- Witness for C5: the general first-success theorem applied to a
one-candidate order with a configured Brave provider and an error-free
backend. -/
theorem C5_witness :
    runChain (σ := Unit)
      ⟨{ GOOGLE_SEARCH_API_KEY := none, GOOGLE_SEARCH_CX := none,
         BRAVE_SEARCH_API_KEY := some "bk", XAI_API_KEY := none },
       {},
       fun u _ => (true, u),
       fun _ _ _ => .ok [⟨"Good", "https://example.com/1", "s"⟩],
       "q", 5⟩
      ["brave", "xai"] () [] =
      .success "brave" "q" [⟨"Good", "https://example.com/1", "s"⟩] := by
  have h := C5_first_success_immediate.1 Unit
    ⟨{ GOOGLE_SEARCH_API_KEY := none, GOOGLE_SEARCH_CX := none,
       BRAVE_SEARCH_API_KEY := some "bk", XAI_API_KEY := none },
     {},
     fun u _ => (true, u),
     fun _ _ _ => .ok [⟨"Good", "https://example.com/1", "s"⟩],
     "q", 5⟩
    "brave" ["xai"] () [] (ProviderClient.brave "bk")
    [⟨"Good", "https://example.com/1", "s"⟩] () (by decide) rfl rfl
  simpa using h

/-- C6 (confirmed): forcing a provider makes the candidate order exactly
that one-element sequence; a forced provider that fails yields `failure`
with its single diagnostic regardless of what any other configured
provider would have returned; without a forced provider the configured
order is filtered to the known identities, and the built-in default order
is used when the configured order is absent or empty. -/
theorem C6_forced_provider_and_order :
    (∀ (config : WebSearchPluginConfig) (p : String), p ≠ "" →
      candidateOrder (some p) config = [p]) ∧
    (∀ (σ : Type) (env : Env) (config : WebSearchPluginConfig)
      (consume : σ → String → Bool × σ)
      (backend : ProviderClient → String → Int → Except String (List WebSearchResult))
      (query : String) (rawCount : Option Int) (limiter : σ)
      (A : String) (client : ProviderClient) (msg : String) (limiter2 : σ),
      A ≠ "" →
      buildProvider A env config = some client →
      consume limiter A = (true, limiter2) →
      backend client query (clampCount rawCount) = .error msg →
      handler env config consume backend query rawCount (some A) limiter =
        .failure [A ++ ": " ++ msg]) ∧
    (∀ config : WebSearchPluginConfig,
      candidateOrder none config = getProviderOrder config) ∧
    (∀ (config : WebSearchPluginConfig) (l : List String),
      config.providerOrder = some l → l ≠ [] →
      getProviderOrder config = l.filter (fun n => knownProviders.contains n)) ∧
    (∀ config : WebSearchPluginConfig,
      config.providerOrder = none ∨ config.providerOrder = some [] →
      getProviderOrder config = DEFAULT_PROVIDER_ORDER) := by
  refine ⟨fun config p hp => ?_, ?_, fun config => rfl, fun config l hl hne => ?_, ?_⟩
  · simp [candidateOrder, hp]
  · intro σ env config consume backend query rawCount limiter A client msg limiter2
      hA hbuild hcons hback
    simp [handler, candidateOrder, hA, runChain, hbuild, hcons, hback]
  · simp [getProviderOrder, hl, List.length_pos, hne]
  · rintro config (h | h) <;> simp [getProviderOrder, h]

/-- Witness for C6: google is forced and fails while brave is configured
and would succeed; the outcome is the single-diagnostic failure. -/
theorem C6_witness :
    handler (σ := Unit)
      { GOOGLE_SEARCH_API_KEY := some "gk", GOOGLE_SEARCH_CX := some "gc",
        BRAVE_SEARCH_API_KEY := some "bk", XAI_API_KEY := none }
      {}
      (fun u _ => (true, u))
      (fun client _ _ =>
        match client with
        | .google _ _ => .error "HTTP 500"
        | _ => .ok [⟨"Good", "https://example.com/1", "s"⟩])
      "q" none (some "google") () = .failure ["google: HTTP 500"] :=
  C6_forced_provider_and_order.2.1 Unit
    { GOOGLE_SEARCH_API_KEY := some "gk", GOOGLE_SEARCH_CX := some "gc",
      BRAVE_SEARCH_API_KEY := some "bk", XAI_API_KEY := none }
    {}
    (fun u _ => (true, u))
    (fun client _ _ =>
      match client with
      | .google _ _ => .error "HTTP 500"
      | _ => .ok [⟨"Good", "https://example.com/1", "s"⟩])
    "q" none () "google" (ProviderClient.google "gk" "gc") "HTTP 500" ()
    (by decide) (by decide) rfl rfl

/-- C10 (confirmed): forcing an unknown provider name runs the
single-candidate loop without any exception (the embedding is a total
function), `buildProvider` returns `null` for the unknown name, and the
outcome is the aggregated failure whose sole diagnostic line is
`"<name>: not configured"`. -/
theorem C10_unknown_forced_provider :
    (∀ (name : String) (env : Env) (config : WebSearchPluginConfig),
      knownProviders.contains name = false →
      buildProvider name env config = none) ∧
    (∀ (σ : Type) (env : Env) (config : WebSearchPluginConfig)
      (consume : σ → String → Bool × σ)
      (backend : ProviderClient → String → Int → Except String (List WebSearchResult))
      (query : String) (rawCount : Option Int) (limiter : σ) (name : String),
      knownProviders.contains name = false → name ≠ "" →
      handler env config consume backend query rawCount (some name) limiter =
        .failure [name ++ ": not configured"]) := by
  have key : ∀ (name : String) (env : Env) (config : WebSearchPluginConfig),
      knownProviders.contains name = false →
      buildProvider name env config = none := by
    intro name env config h
    simp only [knownProviders, List.contains_cons, List.contains_nil,
      Bool.or_eq_false_iff, beq_eq_false_iff_ne, ne_eq] at h
    simp [buildProvider, h.1, h.2.1, h.2.2.1]
  refine ⟨key, ?_⟩
  intro σ env config consume backend query rawCount limiter name h hne
  simp [handler, candidateOrder, hne, runChain, key name env config h]

/-- Witness for C10 at the unknown forced name `"duckduckgo"`. -/
theorem C10_witness :
    handler (σ := Unit)
      { GOOGLE_SEARCH_API_KEY := some "gk", GOOGLE_SEARCH_CX := some "gc",
        BRAVE_SEARCH_API_KEY := some "bk", XAI_API_KEY := some "xk" }
      {}
      (fun u _ => (true, u))
      (fun _ _ _ => .ok [])
      "q" none (some "duckduckgo") () =
      .failure ["duckduckgo: not configured"] :=
  C10_unknown_forced_provider.2 Unit
    { GOOGLE_SEARCH_API_KEY := some "gk", GOOGLE_SEARCH_CX := some "gc",
      BRAVE_SEARCH_API_KEY := some "bk", XAI_API_KEY := some "xk" }
    {}
    (fun u _ => (true, u))
    (fun _ _ _ => .ok [])
    "q" none () "duckduckgo" (by decide) (by decide)

/-- C8 (confirmed): on a fresh bucket, ten zero-elapsed consumptions
succeed, the eleventh is refused with the bucket state unchanged (tokens
stay at 0), and after exactly 1/refillRate seconds (100 ms of `Date.now()`
time) exactly one further consumption succeeds before a zero-elapsed call
is refused again. -/
theorem C8_token_bucket_run :
    consumeRun (freshBucket 0) (List.replicate 11 0) =
      (List.replicate 10 true ++ [false],
       { tokens := 0, lastRefill := 0, maxTokens := 10, refillRate := 10 }) ∧
    consumeRun (freshBucket 0) (List.replicate 11 0 ++ [100, 100]) =
      (List.replicate 10 true ++ [false, true, false],
       { tokens := 0, lastRefill := 100, maxTokens := 10, refillRate := 10 }) := by
  constructor <;>
    norm_num [consumeRun, consumeToken, freshBucket, List.replicate, min_def]

/-- C9 is refuted as stated: the invariant `0 ≤ tokens` is not maintained
for arbitrary operation timestamps.  A bucket freshly created at
`Date.now() = 2000` and consumed at `Date.now() = 0` (the wall clock
stepped backwards two seconds) ends the refill-then-consume operation with
`tokens = -10`. -/
theorem C9_counterexample :
    (consumeToken (freshBucket 2000) 0).2.tokens = -10 ∧
    ¬ (0 ≤ (consumeToken (freshBucket 2000) 0).2.tokens) := by
  constructor <;> norm_num [consumeToken, freshBucket, min_def]

/-- C9 (corrected): the invariant `0 ≤ tokens ≤ maxTokens` holds after
every refill-then-consume operation provided the operation timestamps are
non-decreasing (each call's `Date.now()` is at least the bucket's
`lastRefill`) and the refill rate is non-negative — both hold for every
bucket the code creates under a monotone clock; with a clock stepping
backwards the invariant can fail (see the counterexample). -/
theorem C9_amended :
    (∀ (b : RateBucket) (now : Rat),
      0 ≤ b.tokens → b.tokens ≤ b.maxTokens → 0 ≤ b.refillRate →
      b.lastRefill ≤ now →
      0 ≤ (consumeToken b now).2.tokens ∧
      (consumeToken b now).2.tokens ≤ (consumeToken b now).2.maxTokens) ∧
    (∀ (b : RateBucket) (nows : List Rat),
      0 ≤ b.tokens → b.tokens ≤ b.maxTokens → 0 ≤ b.refillRate →
      List.Chain (· ≤ ·) b.lastRefill nows →
      0 ≤ (consumeRun b nows).2.tokens ∧
      (consumeRun b nows).2.tokens ≤ (consumeRun b nows).2.maxTokens) := by
  have step : ∀ (b : RateBucket) (now : Rat),
      0 ≤ b.tokens → b.tokens ≤ b.maxTokens → 0 ≤ b.refillRate →
      b.lastRefill ≤ now →
      0 ≤ (consumeToken b now).2.tokens ∧
      (consumeToken b now).2.tokens ≤ (consumeToken b now).2.maxTokens ∧
      (consumeToken b now).2.maxTokens = b.maxTokens ∧
      (consumeToken b now).2.refillRate = b.refillRate ∧
      (consumeToken b now).2.lastRefill = now := by
    intro b now h0 h1 hr hm
    have hmax : (0:Rat) ≤ b.maxTokens := le_trans h0 h1
    have hgain : (0:Rat) ≤ (now - b.lastRefill) / 1000 * b.refillRate := by
      apply mul_nonneg (div_nonneg (by linarith) (by norm_num)) hr
    have ht0 : (0:Rat) ≤
        min b.maxTokens (b.tokens + (now - b.lastRefill) / 1000 * b.refillRate) :=
      le_min hmax (by linarith)
    have ht1 :
        min b.maxTokens (b.tokens + (now - b.lastRefill) / 1000 * b.refillRate) ≤
          b.maxTokens := min_le_left _ _
    simp only [consumeToken]
    split
    · exact ⟨ht0, ht1, rfl, rfl, rfl⟩
    · rename_i hge
      push_neg at hge
      refine ⟨?_, ?_, rfl, rfl, rfl⟩
      · show (0:Rat) ≤
          min b.maxTokens (b.tokens + (now - b.lastRefill) / 1000 * b.refillRate) - 1
        linarith
      · show min b.maxTokens (b.tokens + (now - b.lastRefill) / 1000 * b.refillRate) - 1 ≤
          b.maxTokens
        linarith
  refine ⟨fun b now h0 h1 hr hm => ⟨(step b now h0 h1 hr hm).1,
    (step b now h0 h1 hr hm).2.1⟩, ?_⟩
  intro b nows
  induction nows generalizing b with
  | nil => intro h0 h1 hr _; exact ⟨h0, h1⟩
  | cons t ts ih =>
    intro h0 h1 hr hchain
    rw [List.chain_cons] at hchain
    obtain ⟨hle, hchain2⟩ := hchain
    obtain ⟨s0, s1, smax, srate, slast⟩ := step b t h0 h1 hr hle
    have := ih (consumeToken b t).2 s0 (by rw [smax] at s1; exact s1.trans_eq smax.symm)
      (by rw [srate]; exact hr) (by rw [slast]; exact hchain2)
    simpa [consumeRun] using this

/-- Witness for the amended C9: a fresh bucket driven at the
non-decreasing times 0 ms, 0 ms, 100 ms keeps the invariant. -/
theorem C9_amended_witness :
    0 ≤ (consumeRun (freshBucket 0) [0, 0, 100]).2.tokens ∧
    (consumeRun (freshBucket 0) [0, 0, 100]).2.tokens ≤
      (consumeRun (freshBucket 0) [0, 0, 100]).2.maxTokens :=
  C9_amended.2 (freshBucket 0) [0, 0, 100] (by norm_num [freshBucket])
    (by norm_num [freshBucket]) (by norm_num [freshBucket])
    (by simp [freshBucket, List.chain_cons])
